import Mathlib

/-!
Verification development for `rater.py`, a course-rating script.

The script scores tabular course records: ten per-attribute utility
functions map raw cell values onto `[0,1]`, a fixed weight vector combines
them linearly, and the result is scaled to `[0,100]`.

Embedding choices:
* A raw cell value is `Option String`: `none` models Python `None`
  (an absent column, as returned by `row.get`), `some s` a present cell.
* Python floats are modelled by `ℚ`: every computation in the script is
  a sum, difference, product or division by a small constant on values in
  the range `[0,5]`, all exact in double precision, so the rational
  semantics agrees with the float semantics on these operations.
* `str(v)` and `float(v)` are modelled by `pyStr` and `pyFloat?`; string
  trimming, case mapping and substring tests are modelled over `List Char`
  (ASCII case mapping, which agrees with Python on the data involved).
* A row is an association list of column name to cell string; `getCol`
  models `row.get(col)` of a pandas row, returning `none` when the column
  is absent.
-/

/-! ### Column name constants (`rater.py` lines 7–16) -/

def COL_PROG : String := "Programme recommended (Y/N)"

def COL_LOC : String := "Location (Johanneberg/Lindholmen/online)"

def COL_FMT : String := "Teaching format (lectures / proj)"

def COL_HARD : String := "Hardness (1–5)"

def COL_WORK : String := "Workload (1–5)"

def COL_INTEREST : String := "Interest / fun (1–5)"

def COL_USEFUL : String := "Usefulness for career (1–5)"

def COL_ALIGN : String := "Alignment with SE master (1–5)"

def COL_EXAM : String := "Exam type (written / proj / mixed)"

def COL_GROUP : String := "Group work level (1–5)"

/-! ### Python-primitive models -/

/-- A raw cell value: `none` is Python `None` (absent field). -/
abbrev Value := Option String

/-- Whitespace recognised by Python `str.strip()` on the data involved. -/
def isSpaceChar (c : Char) : Bool :=
  c == ' ' || c == '\t' || c == '\n' || c == '\r'

/-- Python `str.strip()`: drop leading and trailing whitespace. -/
def pyStrip (s : String) : String :=
  ⟨((s.toList.dropWhile isSpaceChar).reverse.dropWhile isSpaceChar).reverse⟩

/-- Python `str.upper()` (ASCII). -/
def pyUpper (s : String) : String :=
  ⟨s.toList.map Char.toUpper⟩

/-- Python `str.lower()` (ASCII). -/
def pyLower (s : String) : String :=
  ⟨s.toList.map Char.toLower⟩

/-- Does `needle` occur at the head of `hay`? -/
def headMatch : List Char → List Char → Bool
  | _, [] => true
  | [], _ :: _ => false
  | h :: t, h2 :: t2 => h == h2 && headMatch t t2

/-- Does `needle` occur as a contiguous substring of `hay`? -/
def hasSub (needle : List Char) : List Char → Bool
  | [] => headMatch [] needle
  | h :: t => headMatch (h :: t) needle || hasSub needle t

/-- Python `needle in hay` on strings. -/
def pyIn (needle hay : String) : Bool :=
  hasSub needle.toList hay.toList

/-- Python `str(v)`: `str(None)` is the string `"None"`. -/
def pyStr : Value → String
  | none => "None"
  | some s => s

/-- Numeric value of a digit list, most significant first. -/
def digitsVal (l : List Char) : ℕ :=
  l.foldl (fun a c => 10 * a + (c.toNat - 48)) 0

/-- Lexical stage of the decimal fragment of Python `float(string)`:
optional surrounding whitespace, optional sign, digits with an optional
fractional part. Returns the sign, the integer-part value, the
fractional-part value and the fractional digit count. Exotic accepted
forms (exponents, `inf`, `nan`, underscores) are modelled as parse
failures; none occur in the data the script is written for. -/
def parseParts? (s : String) : Option (Bool × ℕ × ℕ × ℕ) :=
  let cs := (pyStrip s).toList
  let neg : Bool :=
    match cs with
    | '-' :: _ => true
    | _ => false
  let rest : List Char :=
    match cs with
    | '-' :: r => r
    | '+' :: r => r
    | r => r
  let ip := rest.takeWhile Char.isDigit
  let r2 := rest.dropWhile Char.isDigit
  match r2 with
  | [] => if ip.isEmpty then none else some (neg, digitsVal ip, 0, 0)
  | '.' :: fp =>
      if fp.all Char.isDigit && !(ip.isEmpty && fp.isEmpty) then
        some (neg, digitsVal ip, digitsVal fp, fp.length)
      else none
  | _ => none

/-- Numeric value of the parsed parts of a decimal string. -/
def ratOfParts (p : Bool × ℕ × ℕ × ℕ) : ℚ :=
  (if p.1 then (-1 : ℚ) else 1) *
    ((p.2.1 : ℚ) + (p.2.2.1 : ℚ) / (10 : ℚ) ^ p.2.2.2)

/-- The decimal fragment of Python `float(string)`. -/
def parseRat? (s : String) : Option ℚ :=
  (parseParts? s).map ratOfParts

/-- Python `float(v)` under `try`: `float(None)` raises (parse failure),
a string is parsed as a decimal number. -/
def pyFloat? : Value → Option ℚ
  | none => none
  | some s => parseRat? s

/-! ### The scoring engine (`rater.py` lines 19–158) -/

/-- Clamp value to [0, 1]. -/
def clip01 (x : ℚ) : ℚ :=
  max 0 (min 1 x)

/-- Programme recommended (Y/N). -/
def util_prog (y_or_n : Value) : ℚ :=
  if pyUpper (pyStrip (pyStr y_or_n)) = "Y" then 1.0
  else if pyUpper (pyStrip (pyStr y_or_n)) = "N" then 0.6
  else 0.6

/-- Location (Lindholmen/Johanneberg/online). -/
def util_location (loc : Value) : ℚ :=
  if pyStrip (pyStr loc) = "Lindholmen" then 1.0
  else if pyStrip (pyStr loc) = "Johanneberg" then 0.8
  else if pyLower (pyStrip (pyStr loc)) = "online" then 0.9
  else 0.9

/-- Teaching format (lectures / proj / both). -/
def util_format (fmt : Value) : ℚ :=
  if pyIn "lecture" (pyLower (pyStrip (pyStr fmt))) then 1.0
  else if pyIn "project" (pyLower (pyStrip (pyStr fmt))) &&
      !(pyIn "lecture" (pyLower (pyStrip (pyStr fmt)))) then 0.9
  else if pyIn "both" (pyLower (pyStrip (pyStr fmt))) ||
      pyIn "bth" (pyLower (pyStrip (pyStr fmt))) ||
      pyIn "mixed" (pyLower (pyStrip (pyStr fmt))) then 0.85
  else 0.9

/-- Exam type (written / proj / mixed). -/
def util_exam (exam : Value) : ℚ :=
  if pyIn "proj" (pyLower (pyStrip (pyStr exam))) then 1.0
  else if pyIn "mix" (pyLower (pyStrip (pyStr exam))) ||
      pyIn "both" (pyLower (pyStrip (pyStr exam))) then 0.8
  else if pyIn "written" (pyLower (pyStrip (pyStr exam))) then 0.7
  else 0.8

/-- Lower is better (Hardness, Workload). Maps 1..5 → 1..0 linearly. -/
def util_cost (v : Value) : ℚ :=
  match pyFloat? v with
  | none => 0.5
  | some x => clip01 ((5.0 - x) / 4.0)

/-- Higher is better (Interest, Usefulness, Alignment).
Maps 1..5 → 0..1 linearly. -/
def util_benefit (v : Value) : ℚ :=
  match pyFloat? v with
  | none => 0.5
  | some x => clip01 ((x - 1.0) / 4.0)

/-- Group work level, best around 3. 3 → 1.0, 2/4 → 0.5, 1/5 → 0.0. -/
def util_group (v : Value) : ℚ :=
  match pyFloat? v with
  | none => 0.5
  | some x => clip01 (1.0 - |x - 3.0| / 2.0)

/-! ### Weights (`rater.py` lines 108–117) -/

def w_prog : ℚ := 0.10

def w_loc : ℚ := 0.05

def w_fmt : ℚ := 0.05

def w_hard : ℚ := 0.10

def w_work : ℚ := 0.10

def w_interest : ℚ := 0.20

def w_useful : ℚ := 0.20

def w_align : ℚ := 0.15

def w_group : ℚ := 0.05

def w_exam : ℚ := 0.00

/-! ### Aggregation (`rater.py` lines 120–158) -/

/-- A row: association list from column name to cell string. -/
abbrev Row := List (String × String)

/-- `row.get(col)` on a pandas row: the cell, or `none` when the column
is absent. -/
def getCol (row : Row) (k : String) : Value :=
  List.lookup k row

/-- The mapping returned by `compute_score`: the ten intermediate
utilities plus the final score. -/
structure ScoreResult where
  u_prog : ℚ
  u_loc : ℚ
  u_fmt : ℚ
  u_hard : ℚ
  u_work : ℚ
  u_interest : ℚ
  u_useful : ℚ
  u_align : ℚ
  u_group : ℚ
  u_exam : ℚ
  Score : ℚ
deriving DecidableEq, Repr

/-- The weighted combination on lines 133–144 of `rater.py`, as a function
of the ten utilities. -/
def aggregate (up ul uf uh uw ui uu ua ug ue : ℚ) : ℚ :=
  100.0 * (
    w_prog * up +
    w_loc * ul +
    w_fmt * uf +
    w_hard * uh +
    w_work * uw +
    w_interest * ui +
    w_useful * uu +
    w_align * ua +
    w_group * ug +
    w_exam * ue)

/-- Compute per-course utilities and final score. -/
def compute_score (row : Row) : ScoreResult :=
  let u_prog := util_prog (getCol row COL_PROG)
  let u_loc := util_location (getCol row COL_LOC)
  let u_fmt := util_format (getCol row COL_FMT)
  let u_hard := util_cost (getCol row COL_HARD)
  let u_work := util_cost (getCol row COL_WORK)
  let u_inter := util_benefit (getCol row COL_INTEREST)
  let u_useful := util_benefit (getCol row COL_USEFUL)
  let u_align := util_benefit (getCol row COL_ALIGN)
  let u_group := util_group (getCol row COL_GROUP)
  let u_exam := util_exam (getCol row COL_EXAM)
  { u_prog := u_prog
    u_loc := u_loc
    u_fmt := u_fmt
    u_hard := u_hard
    u_work := u_work
    u_interest := u_inter
    u_useful := u_useful
    u_align := u_align
    u_group := u_group
    u_exam := u_exam
    Score := 100.0 * (
      w_prog * u_prog +
      w_loc * u_loc +
      w_fmt * u_fmt +
      w_hard * u_hard +
      w_work * u_work +
      w_interest * u_inter +
      w_useful * u_useful +
      w_align * u_align +
      w_group * u_group +
      w_exam * u_exam) }

/-- `df.apply(compute_score, axis=1)`: score every row independently. -/
def scoreTable (rows : List Row) : List ScoreResult :=
  rows.map compute_score

/-! ### Evaluation helpers -/

theorem parseRat_eval {s : String} {p : Bool × ℕ × ℕ × ℕ}
    (h : parseParts? s = some p) : parseRat? s = some (ratOfParts p) := by
  unfold parseRat?; rw [h]; rfl

theorem pyFloat_parse {s : String} {p : Bool × ℕ × ℕ × ℕ}
    (h : parseParts? s = some p) : pyFloat? (some s) = some (ratOfParts p) :=
  parseRat_eval h

/-! ### clip01 lemmas -/

theorem clip01_nonneg (x : ℚ) : 0 ≤ clip01 x := le_max_left 0 _

theorem clip01_le_one (x : ℚ) : clip01 x ≤ 1 :=
  max_le (by norm_num) (min_le_left 1 x)

theorem clip01_mono {a b : ℚ} (h : a ≤ b) : clip01 a ≤ clip01 b :=
  max_le_max le_rfl (min_le_min le_rfl h)

theorem clip01_of_one_le {x : ℚ} (h : 1 ≤ x) : clip01 x = 1 := by
  unfold clip01
  rw [min_eq_left h, max_eq_right]
  norm_num

theorem clip01_of_nonpos {x : ℚ} (h : x ≤ 0) : clip01 x = 0 := by
  unfold clip01
  rw [min_eq_right (h.trans (by norm_num)), max_eq_left h]

theorem clip01_of_mem {x : ℚ} (h0 : 0 ≤ x) (h1 : x ≤ 1) : clip01 x = x := by
  unfold clip01
  rw [min_eq_right h1, max_eq_right h0]

/-! ### Utility-function range lemmas -/

theorem util_prog_bounds (v : Value) : 0.6 ≤ util_prog v ∧ util_prog v ≤ 1 := by
  unfold util_prog
  split
  · norm_num
  · split <;> norm_num

theorem util_location_bounds (v : Value) :
    0.8 ≤ util_location v ∧ util_location v ≤ 1 := by
  unfold util_location
  split
  · norm_num
  split
  · norm_num
  split <;> norm_num

theorem util_format_bounds (v : Value) :
    0.85 ≤ util_format v ∧ util_format v ≤ 1 := by
  unfold util_format
  split
  · norm_num
  split
  · norm_num
  split <;> norm_num

theorem util_exam_bounds (v : Value) : 0.7 ≤ util_exam v ∧ util_exam v ≤ 1 := by
  unfold util_exam
  split
  · norm_num
  split
  · norm_num
  split <;> norm_num

theorem util_cost_bounds (v : Value) : 0 ≤ util_cost v ∧ util_cost v ≤ 1 := by
  unfold util_cost
  rcases pyFloat? v with _ | x
  · norm_num
  · exact ⟨clip01_nonneg _, clip01_le_one _⟩

theorem util_benefit_bounds (v : Value) :
    0 ≤ util_benefit v ∧ util_benefit v ≤ 1 := by
  unfold util_benefit
  rcases pyFloat? v with _ | x
  · norm_num
  · exact ⟨clip01_nonneg _, clip01_le_one _⟩

theorem util_group_bounds (v : Value) : 0 ≤ util_group v ∧ util_group v ≤ 1 := by
  unfold util_group
  rcases pyFloat? v with _ | x
  · norm_num
  · exact ⟨clip01_nonneg _, clip01_le_one _⟩

/-! ### Utility values on a missing field -/

theorem util_prog_none : util_prog none = 0.6 := by
  unfold util_prog
  rw [if_neg (by decide), if_neg (by decide)]

theorem util_location_none : util_location none = 0.9 := by
  unfold util_location
  rw [if_neg (by decide), if_neg (by decide), if_neg (by decide)]

theorem util_format_none : util_format none = 0.9 := by
  unfold util_format
  rw [if_neg (by decide), if_neg (by decide), if_neg (by decide)]

theorem util_exam_none : util_exam none = 0.8 := by
  unfold util_exam
  rw [if_neg (by decide), if_neg (by decide), if_neg (by decide)]

theorem util_cost_none : util_cost none = 0.5 := rfl

theorem util_benefit_none : util_benefit none = 0.5 := rfl

theorem util_group_none : util_group none = 0.5 := rfl

/-! ### util_cost evaluation lemmas -/

theorem util_cost_failure {v : Value} (h : pyFloat? v = none) :
    util_cost v = 0.5 := by
  unfold util_cost; rw [h]

theorem util_cost_parsed {v : Value} {x : ℚ} (h : pyFloat? v = some x) :
    util_cost v = clip01 ((5 - x) / 4) := by
  unfold util_cost; rw [h]; norm_num

theorem util_cost_one : util_cost (some "1") = 1 := by
  rw [util_cost_parsed (pyFloat_parse (p := (false, 1, 0, 0)) (by decide)),
    (by norm_num [ratOfParts] : ratOfParts (false, 1, 0, 0) = 1),
    clip01_of_one_le (by norm_num)]

theorem util_cost_five : util_cost (some "5") = 0 := by
  rw [util_cost_parsed (pyFloat_parse (p := (false, 5, 0, 0)) (by decide)),
    (by norm_num [ratOfParts] : ratOfParts (false, 5, 0, 0) = 5),
    clip01_of_nonpos (by norm_num)]

theorem util_cost_three : util_cost (some "3") = 0.5 := by
  rw [util_cost_parsed (pyFloat_parse (p := (false, 3, 0, 0)) (by decide)),
    (by norm_num [ratOfParts] : ratOfParts (false, 3, 0, 0) = 3),
    clip01_of_mem (by norm_num) (by norm_num)]
  norm_num

theorem util_cost_x : util_cost (some "x") = 0.5 :=
  util_cost_failure (by decide)

theorem util_cost_six : util_cost (some "6") = 0 := by
  rw [util_cost_parsed (pyFloat_parse (p := (false, 6, 0, 0)) (by decide)),
    (by norm_num [ratOfParts] : ratOfParts (false, 6, 0, 0) = 6),
    clip01_of_nonpos (by norm_num)]

theorem util_cost_zero : util_cost (some "0") = 1 := by
  rw [util_cost_parsed (pyFloat_parse (p := (false, 0, 0, 0)) (by decide)),
    (by norm_num [ratOfParts] : ratOfParts (false, 0, 0, 0) = 0),
    clip01_of_one_le (by norm_num)]

/-! ### compute_score projection lemmas -/

theorem cs_Score (row : Row) : (compute_score row).Score =
    aggregate (util_prog (getCol row COL_PROG)) (util_location (getCol row COL_LOC))
      (util_format (getCol row COL_FMT)) (util_cost (getCol row COL_HARD))
      (util_cost (getCol row COL_WORK)) (util_benefit (getCol row COL_INTEREST))
      (util_benefit (getCol row COL_USEFUL)) (util_benefit (getCol row COL_ALIGN))
      (util_group (getCol row COL_GROUP)) (util_exam (getCol row COL_EXAM)) := rfl

/-- A row that only carries a Hardness cell scores 50 plus 10 times the
hardness utility: every other attribute sits at its neutral default. -/
theorem cs_hard_only (s : String) :
    (compute_score [(COL_HARD, s)]).Score = 50 + 10 * util_cost (some s) := by
  rw [cs_Score,
    show getCol [(COL_HARD, s)] COL_PROG = none from rfl,
    show getCol [(COL_HARD, s)] COL_LOC = none from rfl,
    show getCol [(COL_HARD, s)] COL_FMT = none from rfl,
    show getCol [(COL_HARD, s)] COL_HARD = some s from rfl,
    show getCol [(COL_HARD, s)] COL_WORK = none from rfl,
    show getCol [(COL_HARD, s)] COL_INTEREST = none from rfl,
    show getCol [(COL_HARD, s)] COL_USEFUL = none from rfl,
    show getCol [(COL_HARD, s)] COL_ALIGN = none from rfl,
    show getCol [(COL_HARD, s)] COL_GROUP = none from rfl,
    show getCol [(COL_HARD, s)] COL_EXAM = none from rfl,
    util_prog_none, util_location_none, util_format_none, util_cost_none,
    util_benefit_none, util_group_none, util_exam_none]
  unfold aggregate w_prog w_loc w_fmt w_hard w_work w_interest w_useful w_align
    w_group w_exam
  norm_num
  ring

/-! ### Claim theorems -/

/-- Claim C1: for every record, `compute_score` returns the score equal to
100 times the sum over the 10 attributes of (weight times that attribute's
utility applied to the record's corresponding raw field, a missing field
being the function's no-value input), and the returned mapping carries all
10 intermediate utilities plus the final Score. -/
theorem spec_C1_compute_score_formula (row : Row) :
    (compute_score row).Score = 100 * (
      w_prog * util_prog (getCol row COL_PROG) +
      w_loc * util_location (getCol row COL_LOC) +
      w_fmt * util_format (getCol row COL_FMT) +
      w_hard * util_cost (getCol row COL_HARD) +
      w_work * util_cost (getCol row COL_WORK) +
      w_interest * util_benefit (getCol row COL_INTEREST) +
      w_useful * util_benefit (getCol row COL_USEFUL) +
      w_align * util_benefit (getCol row COL_ALIGN) +
      w_group * util_group (getCol row COL_GROUP) +
      w_exam * util_exam (getCol row COL_EXAM)) ∧
    (compute_score row).u_prog = util_prog (getCol row COL_PROG) ∧
    (compute_score row).u_loc = util_location (getCol row COL_LOC) ∧
    (compute_score row).u_fmt = util_format (getCol row COL_FMT) ∧
    (compute_score row).u_hard = util_cost (getCol row COL_HARD) ∧
    (compute_score row).u_work = util_cost (getCol row COL_WORK) ∧
    (compute_score row).u_interest = util_benefit (getCol row COL_INTEREST) ∧
    (compute_score row).u_useful = util_benefit (getCol row COL_USEFUL) ∧
    (compute_score row).u_align = util_benefit (getCol row COL_ALIGN) ∧
    (compute_score row).u_group = util_group (getCol row COL_GROUP) ∧
    (compute_score row).u_exam = util_exam (getCol row COL_EXAM) := by
  refine ⟨?_, rfl, rfl, rfl, rfl, rfl, rfl, rfl, rfl, rfl, rfl⟩
  rw [cs_Score]
  unfold aggregate
  norm_num

/-- Claim C2: for every input value whatsoever (numeric in range, numeric
out of range, negative, non-numeric text, missing), each of the numeric
utility functions `util_cost`, `util_benefit` and `util_group` returns a
value in `[0, 1]`. -/
theorem spec_C2_numeric_utils_unit_interval (v : Value) :
    (0 ≤ util_cost v ∧ util_cost v ≤ 1) ∧
    (0 ≤ util_benefit v ∧ util_benefit v ≤ 1) ∧
    (0 ≤ util_group v ∧ util_group v ≤ 1) :=
  ⟨util_cost_bounds v, util_benefit_bounds v, util_group_bounds v⟩

/-- Claim C3: the weights are fixed constants summing to 1, and for every
record the Score produced by `compute_score` satisfies `0 ≤ Score ≤ 100`. -/
theorem spec_C3_score_range (row : Row) :
    w_prog + w_loc + w_fmt + w_hard + w_work + w_interest + w_useful +
      w_align + w_group + w_exam = 1 ∧
    0 ≤ (compute_score row).Score ∧ (compute_score row).Score ≤ 100 := by
  obtain ⟨hp1, hp2⟩ := util_prog_bounds (getCol row COL_PROG)
  obtain ⟨hl1, hl2⟩ := util_location_bounds (getCol row COL_LOC)
  obtain ⟨hf1, hf2⟩ := util_format_bounds (getCol row COL_FMT)
  obtain ⟨hh1, hh2⟩ := util_cost_bounds (getCol row COL_HARD)
  obtain ⟨hw1, hw2⟩ := util_cost_bounds (getCol row COL_WORK)
  obtain ⟨hi1, hi2⟩ := util_benefit_bounds (getCol row COL_INTEREST)
  obtain ⟨hu1, hu2⟩ := util_benefit_bounds (getCol row COL_USEFUL)
  obtain ⟨ha1, ha2⟩ := util_benefit_bounds (getCol row COL_ALIGN)
  obtain ⟨hg1, hg2⟩ := util_group_bounds (getCol row COL_GROUP)
  obtain ⟨he1, he2⟩ := util_exam_bounds (getCol row COL_EXAM)
  refine ⟨by norm_num [w_prog, w_loc, w_fmt, w_hard, w_work, w_interest,
    w_useful, w_align, w_group, w_exam], ?_, ?_⟩ <;>
  · rw [cs_Score]
    unfold aggregate w_prog w_loc w_fmt w_hard w_work w_interest w_useful
      w_align w_group w_exam
    norm_num
    linarith

/-- Claim C4: every one of the attribute utility functions is total (in
this embedding every function is total by construction; no exception path
exists) and, applied to an absent field value, returns its documented
neutral default: `util_prog` 0.6, `util_location` 0.9, `util_format` 0.9,
`util_exam` 0.8, and `util_cost`, `util_benefit`, `util_group` 0.5. -/
theorem spec_C4_totality_defaults :
    util_prog none = 0.6 ∧ util_location none = 0.9 ∧
    util_format none = 0.9 ∧ util_exam none = 0.8 ∧
    util_cost none = 0.5 ∧ util_benefit none = 0.5 ∧ util_group none = 0.5 :=
  ⟨util_prog_none, util_location_none, util_format_none, util_exam_none,
   util_cost_none, util_benefit_none, util_group_none⟩

/-- Claim C5: `util_cost` returns 0.5 on parse failure, on a parsed number
`x` returns `(5 - x) / 4` clipped to `[0,1]` after the linear map, and in
particular `util_cost(1)=1`, `util_cost(5)=0`, `util_cost(3)=0.5`,
`util_cost("x")=0.5`, `util_cost(6)=0`, `util_cost(0)=1`. -/
theorem spec_C5_util_cost_contract (v : Value) :
    (pyFloat? v = none → util_cost v = 0.5) ∧
    (∀ x : ℚ, pyFloat? v = some x → util_cost v = clip01 ((5 - x) / 4)) ∧
    util_cost (some "1") = 1 ∧ util_cost (some "5") = 0 ∧
    util_cost (some "3") = 0.5 ∧ util_cost (some "x") = 0.5 ∧
    util_cost (some "6") = 0 ∧ util_cost (some "0") = 1 :=
  ⟨fun h => util_cost_failure h, fun _ h => util_cost_parsed h,
   util_cost_one, util_cost_five, util_cost_three, util_cost_x,
   util_cost_six, util_cost_zero⟩

/-- Witness for C5: the two conditional clauses applied at concrete
inputs, a parse failure and a parsed value. -/
theorem spec_C5_util_cost_contract_witness :
    util_cost (some "abc") = 0.5 ∧ util_cost (some "2") = clip01 ((5 - 2) / 4) :=
  ⟨(spec_C5_util_cost_contract (some "abc")).1 (by decide),
   (spec_C5_util_cost_contract (some "2")).2.1 2
     (by rw [pyFloat_parse (p := (false, 2, 0, 0)) (by decide)]
         norm_num [ratOfParts])⟩

/-- Counterexample to C7 as stated: two records that agree on every raw
field except Hardness. Only the utility `u_hard` differs — it is raised
from 0 to 1 — yet the Score strictly increases (60 against 50), so the
score is not non-increasing in the cost-type utility `u_hard`. -/
theorem spec_C7_counterexample :
    (compute_score [(COL_HARD, "1")]).u_hard >
      (compute_score [(COL_HARD, "5")]).u_hard ∧
    (compute_score [(COL_HARD, "1")]).u_prog =
      (compute_score [(COL_HARD, "5")]).u_prog ∧
    (compute_score [(COL_HARD, "1")]).u_loc =
      (compute_score [(COL_HARD, "5")]).u_loc ∧
    (compute_score [(COL_HARD, "1")]).u_fmt =
      (compute_score [(COL_HARD, "5")]).u_fmt ∧
    (compute_score [(COL_HARD, "1")]).u_work =
      (compute_score [(COL_HARD, "5")]).u_work ∧
    (compute_score [(COL_HARD, "1")]).u_interest =
      (compute_score [(COL_HARD, "5")]).u_interest ∧
    (compute_score [(COL_HARD, "1")]).u_useful =
      (compute_score [(COL_HARD, "5")]).u_useful ∧
    (compute_score [(COL_HARD, "1")]).u_align =
      (compute_score [(COL_HARD, "5")]).u_align ∧
    (compute_score [(COL_HARD, "1")]).u_group =
      (compute_score [(COL_HARD, "5")]).u_group ∧
    (compute_score [(COL_HARD, "1")]).u_exam =
      (compute_score [(COL_HARD, "5")]).u_exam ∧
    (compute_score [(COL_HARD, "1")]).Score >
      (compute_score [(COL_HARD, "5")]).Score := by
  refine ⟨?_, rfl, rfl, rfl, rfl, rfl, rfl, rfl, rfl, rfl, ?_⟩
  · show util_cost (some "1") > util_cost (some "5")
    rw [util_cost_one, util_cost_five]
    norm_num
  · rw [cs_hard_only, cs_hard_only, util_cost_one, util_cost_five]
    norm_num

/-- Claim C7 amended: with the weights held fixed, the score is
monotonically non-decreasing in each benefit-type utility (`u_interest`,
`u_useful`, `u_align`) and also non-decreasing — not non-increasing — in
each cost-type utility (`u_hard`, `u_work`), since every weight is
non-negative; the cost direction lives one level down: `util_cost` is
antitone in the parsed raw value, so the score is non-increasing in the
raw hardness and workload fields. -/
theorem spec_C7_amended_monotonicity
    (up ul uf uh uw ui uu ua ug ue x y : ℚ) (hxy : x ≤ y) :
    aggregate up ul uf uh uw x uu ua ug ue ≤
      aggregate up ul uf uh uw y uu ua ug ue ∧
    aggregate up ul uf uh uw ui x ua ug ue ≤
      aggregate up ul uf uh uw ui y ua ug ue ∧
    aggregate up ul uf uh uw ui uu x ug ue ≤
      aggregate up ul uf uh uw ui uu y ug ue ∧
    aggregate up ul uf x uw ui uu ua ug ue ≤
      aggregate up ul uf y uw ui uu ua ug ue ∧
    aggregate up ul uf uh x ui uu ua ug ue ≤
      aggregate up ul uf uh y ui uu ua ug ue ∧
    (∀ v w : Value, pyFloat? v = some x → pyFloat? w = some y →
      util_cost w ≤ util_cost v) := by
  have hanti : ∀ v w : Value, pyFloat? v = some x → pyFloat? w = some y →
      util_cost w ≤ util_cost v := by
    intro v w hv hw
    rw [util_cost_parsed hv, util_cost_parsed hw]
    exact clip01_mono (by linarith)
  refine ⟨?_, ?_, ?_, ?_, ?_, hanti⟩
  all_goals
    unfold aggregate w_prog w_loc w_fmt w_hard w_work w_interest w_useful
      w_align w_group w_exam
    linarith

/-- Witness for the amended C7: raising `u_interest` from 0 to 1 does not
lower the score, and the hardness utility of raw value 1 is at most that
of raw value 0. -/
theorem spec_C7_amended_monotonicity_witness :
    aggregate 0 0 0 0 0 0 0 0 0 0 ≤ aggregate 0 0 0 0 0 1 0 0 0 0 ∧
    util_cost (some "1") ≤ util_cost (some "0") :=
  ⟨(spec_C7_amended_monotonicity 0 0 0 0 0 0 0 0 0 0 0 1 (by norm_num)).1,
   (spec_C7_amended_monotonicity 0 0 0 0 0 0 0 0 0 0 0 1
        (by norm_num)).2.2.2.2.2 (some "0") (some "1")
      (by rw [pyFloat_parse (p := (false, 0, 0, 0)) (by decide)]
          norm_num [ratOfParts])
      (by rw [pyFloat_parse (p := (false, 1, 0, 0)) (by decide)]
          norm_num [ratOfParts])⟩

/-- Claim C8: the exam-type weight is exactly 0, so two records agreeing
on all raw fields except the exam-type field get equal Scores, while
`u_exam` is still computed from the exam field and included in the
emitted result for both. -/
theorem spec_C8_exam_weight_zero (r1 r2 : Row)
    (hprog : getCol r1 COL_PROG = getCol r2 COL_PROG)
    (hloc : getCol r1 COL_LOC = getCol r2 COL_LOC)
    (hfmt : getCol r1 COL_FMT = getCol r2 COL_FMT)
    (hhard : getCol r1 COL_HARD = getCol r2 COL_HARD)
    (hwork : getCol r1 COL_WORK = getCol r2 COL_WORK)
    (hint : getCol r1 COL_INTEREST = getCol r2 COL_INTEREST)
    (huse : getCol r1 COL_USEFUL = getCol r2 COL_USEFUL)
    (hali : getCol r1 COL_ALIGN = getCol r2 COL_ALIGN)
    (hgrp : getCol r1 COL_GROUP = getCol r2 COL_GROUP) :
    w_exam = 0 ∧
    (compute_score r1).Score = (compute_score r2).Score ∧
    (compute_score r1).u_exam = util_exam (getCol r1 COL_EXAM) ∧
    (compute_score r2).u_exam = util_exam (getCol r2 COL_EXAM) := by
  refine ⟨by norm_num [w_exam], ?_, rfl, rfl⟩
  rw [cs_Score, cs_Score, hprog, hloc, hfmt, hhard, hwork, hint, huse,
    hali, hgrp]
  unfold aggregate w_exam
  ring

/-- Witness for C8: two one-cell records differing only in the exam-type
field score identically while their `u_exam` fields are still computed
from the exam cell. -/
theorem spec_C8_exam_weight_zero_witness :
    w_exam = 0 ∧
    (compute_score [(COL_EXAM, "written")]).Score =
      (compute_score [(COL_EXAM, "proj")]).Score ∧
    (compute_score [(COL_EXAM, "written")]).u_exam =
      util_exam (getCol [(COL_EXAM, "written")] COL_EXAM) ∧
    (compute_score [(COL_EXAM, "proj")]).u_exam =
      util_exam (getCol [(COL_EXAM, "proj")] COL_EXAM) :=
  spec_C8_exam_weight_zero _ _ rfl rfl rfl rfl rfl rfl rfl rfl rfl

/-- Claim C9: scoring a table is a per-record pure computation: the result
at any row index depends only on the record at that index, never on the
other rows (no shared state between records), so re-running the scorer on
the same table reproduces the same Scores. -/
theorem spec_C9_per_record_purity (xs ys : List Row) (i : ℕ)
    (h : xs[i]? = ys[i]?) :
    (scoreTable xs)[i]? = (scoreTable ys)[i]? := by
  simp only [scoreTable, List.getElem?_map, h]

/-- Witness for C9: the first row's scores are unchanged when a second row
is appended to the table. -/
theorem spec_C9_per_record_purity_witness :
    (scoreTable [[(COL_PROG, "Y")]])[0]? =
      (scoreTable [[(COL_PROG, "Y")], [(COL_PROG, "N")]])[0]? :=
  spec_C9_per_record_purity _ _ 0 rfl

/-- Claim C10: for every record the Score is at least 14.25: the
categorical utilities have positive lower bounds (`util_prog` at least
0.6, `util_location` at least 0.8, `util_format` at least 0.85), so even
with every numeric utility at 0 the weighted sum times 100 is at least
14.25; the bottom of the `[0,100]` scale is unreachable. -/
theorem spec_C10_score_lower_bound (row : Row) :
    14.25 ≤ (compute_score row).Score := by
  obtain ⟨hp1, hp2⟩ := util_prog_bounds (getCol row COL_PROG)
  obtain ⟨hl1, hl2⟩ := util_location_bounds (getCol row COL_LOC)
  obtain ⟨hf1, hf2⟩ := util_format_bounds (getCol row COL_FMT)
  obtain ⟨hh1, hh2⟩ := util_cost_bounds (getCol row COL_HARD)
  obtain ⟨hw1, hw2⟩ := util_cost_bounds (getCol row COL_WORK)
  obtain ⟨hi1, hi2⟩ := util_benefit_bounds (getCol row COL_INTEREST)
  obtain ⟨hu1, hu2⟩ := util_benefit_bounds (getCol row COL_USEFUL)
  obtain ⟨ha1, ha2⟩ := util_benefit_bounds (getCol row COL_ALIGN)
  obtain ⟨hg1, hg2⟩ := util_group_bounds (getCol row COL_GROUP)
  obtain ⟨he1, he2⟩ := util_exam_bounds (getCol row COL_EXAM)
  rw [cs_Score]
  unfold aggregate w_prog w_loc w_fmt w_hard w_work w_interest w_useful
    w_align w_group w_exam
  norm_num
  linarith
